import Mathlib

/-!
Verification of the Beacon bilateral mentor/mentee matching engine.

The repository ships the Next.js frontend (src/frontend), the database
schema (schema.md) and the algorithm documentation (README_V2.md); the
matching engine itself (the Python/FastAPI backend referenced by
README_V2.md and the frontend API client) is not part of the visible
sources.  Definitions marked with a doc comment starting
`Modelled from the spec:` embed that missing engine faithfully from the
specification text; the remaining definitions embed the visible
TypeScript sources.  All real-number arithmetic is embedded over ℚ.
-/

namespace Beacon

/-- Rounding to one decimal place, used when scores are scaled to the
0–100 range: multiply by ten, round half up, divide by ten. -/
def round1 (x : ℚ) : ℚ := ((⌊10 * x + 1/2⌋ : ℤ) : ℚ) / 10

/-- Modelled from the spec: the ephemeral FactorVector computed per
(mentor, mentee) pair — seven named compatibility scores in [0, 1]
(§3 of the spec; the scorer itself is in the absent backend). -/
structure FactorVector where
  shared_university : ℚ
  university_prestige : ℚ
  industry_alignment : ℚ
  help_type_match : ℚ
  location_proximity : ℚ
  experience_gap : ℚ
  goal_alignment : ℚ
deriving DecidableEq

/-- Modelled from the spec: a per-factor importance-weight vector
(integers 0–5, 0 = do-not-care), one weight per factor (§3, §4.3). -/
structure Weights where
  shared_university : ℕ
  university_prestige : ℕ
  industry_alignment : ℕ
  help_type_match : ℕ
  location_proximity : ℕ
  experience_gap : ℕ
  goal_alignment : ℕ
deriving DecidableEq

/-- Total of the seven weights. -/
def Weights.total (w : Weights) : ℕ :=
  w.shared_university + w.university_prestige + w.industry_alignment +
    w.help_type_match + w.location_proximity + w.experience_gap + w.goal_alignment

/-- Σ(weight_i × factor_i) over the seven factors.  A factor whose weight
is 0 contributes 0, so summing over all seven equals summing over the
factors whose weight is positive, as the spec words it. -/
def weightedSum (f : FactorVector) (w : Weights) : ℚ :=
  (w.shared_university : ℚ) * f.shared_university +
    (w.university_prestige : ℚ) * f.university_prestige +
    (w.industry_alignment : ℚ) * f.industry_alignment +
    (w.help_type_match : ℚ) * f.help_type_match +
    (w.location_proximity : ℚ) * f.location_proximity +
    (w.experience_gap : ℚ) * f.experience_gap +
    (w.goal_alignment : ℚ) * f.goal_alignment

/-- Sum of the seven factor values. -/
def factorSum (f : FactorVector) : ℚ :=
  f.shared_university + f.university_prestige + f.industry_alignment +
    f.help_type_match + f.location_proximity + f.experience_gap + f.goal_alignment

/-- Unweighted arithmetic mean of the seven factors. -/
def mean7 (f : FactorVector) : ℚ := factorSum f / 7

/-- Modelled from the spec: the one-sided score of WeightedCombiner
(§4.3, absent backend) — the weighted average
Σ(weight_i × factor_i) / Σ(weight_i), falling back to the unweighted
mean of all seven factors when every weight is 0. -/
def oneSided (f : FactorVector) (w : Weights) : ℚ :=
  if w.total = 0 then mean7 f else weightedSum f w / (w.total : ℚ)

/-- Modelled from the spec: the fixed default mentee-side weight vector —
all factors weighted equally at maximum importance (§4.3). -/
def defaultMenteeWeights : Weights := ⟨5, 5, 5, 5, 5, 5, 5⟩

/-- The all-zero (all do-not-care) weight vector. -/
def zeroWeights : Weights := ⟨0, 0, 0, 0, 0, 0, 0⟩

/-- A factor vector with the same value for all seven factors. -/
def constVector (c : ℚ) : FactorVector := ⟨c, c, c, c, c, c, c⟩

/-- The three outputs of WeightedCombiner, on the 0–100 scale. -/
structure CombinedScores where
  bilateral : ℚ
  mentor_score : ℚ
  mentee_score : ℚ
deriving DecidableEq

/-- Modelled from the spec: WeightedCombiner.combine (§4.3, absent
backend).  Each one-sided 0–1 composite is multiplied by 100 and rounded
to one decimal place; the bilateral score is 0.6 × mentor_score +
0.4 × mentee_score of the scaled scores, rounded to one decimal place
(README_V2.md, steps 2–4 of the bilateral scoring formula). -/
def combine (f : FactorVector) (mw : Weights) (nw : Weights) : CombinedScores :=
  let ms := round1 (100 * oneSided f mw)
  let ns := round1 (100 * oneSided f nw)
  { bilateral := round1 (6/10 * ms + 4/10 * ns), mentor_score := ms, mentee_score := ns }

/-- Modelled from the spec: the experience_gap factor as a function of
the years-of-experience gap (§4.1, absent backend): 0 at a 0-year gap,
linear up to 1.0 at the start of the default 3–7 year band, a plateau of
1.0 across the band, then linear decay back to 0 at the default 12-year
upper bound, and 0 (the default floor) beyond it. -/
def experienceGapScore (gap : ℚ) : ℚ :=
  if gap ≤ 0 then 0
  else if gap < 3 then gap / 3
  else if gap ≤ 7 then 1
  else if gap < 12 then (12 - gap) / 5
  else 0

/-! ### Goal alignment (GoalAlignmentScorer, §4.2) -/

/-- Outcome of the single request to the external text-generation
service: either a parsed (score, reasoning) pair, or one of the failure
modes the spec enumerates (malformed response, timeout, non-success
HTTP status). -/
inductive ExtOutcome where
  | success (score : ℚ) (reasoning : String)
  | malformedResponse
  | timedOut
  | httpFailure
deriving DecidableEq

/-- Mentor profile summary passed to the goal-alignment scorer: current
industry and the help tags the mentor offers. -/
structure MentorSummary where
  industry : String
  help_tags : List String
deriving DecidableEq

/-- Mentee-side inputs to the goal-alignment scorer: stated goals text,
current industry and the help tags needed. -/
structure MenteeInfo where
  industry : String
  help_tags : List String
deriving DecidableEq

/-- Number of distinct help tags present in both the mentor's offered
tags and the mentee's needed tags. -/
def sharedTagCount (mentor : MentorSummary) (mentee : MenteeInfo) : ℕ :=
  (mentee.help_tags.eraseDups.filter (fun t => mentor.help_tags.contains t)).length

/-- Modelled from the spec: the rule-based fallback score of
GoalAlignmentScorer (§4.2, absent backend): start at 0.0, add 0.5 if
industries match, add 0.3 for each help tag shared by both sides,
capped so the total does not exceed 1.0. -/
def fallbackScore (mentor : MentorSummary) (mentee : MenteeInfo) : ℚ :=
  min 1 ((if mentor.industry = mentee.industry then 1/2 else 0) +
    3/10 * (sharedTagCount mentor mentee : ℚ))

/-- The reasoning text attached to a fallback result; it explicitly
states that the fallback was used. -/
def fallbackReasoning : String :=
  "Fallback rule-based scoring used: the external goal-alignment service was unavailable."

/-- Result of goal-alignment scoring: a score in [0, 1], a reasoning
string, and whether the rule-based fallback produced it. -/
structure AlignmentResult where
  score : ℚ
  reasoning : String
  usedFallback : Bool
deriving DecidableEq

/-- Modelled from the spec: score_goal_alignment (§4.2, absent
backend).  The external call's outcome is passed in explicitly; the
function is total — it never raises — and every failure outcome
degrades to the deterministic rule-based fallback. -/
def score_goal_alignment (outcome : ExtOutcome) (mentor : MentorSummary)
    (mentee : MenteeInfo) : AlignmentResult :=
  match outcome with
  | .success s r => ⟨s, r, false⟩
  | .malformedResponse => ⟨fallbackScore mentor mentee, fallbackReasoning, true⟩
  | .timedOut => ⟨fallbackScore mentor mentee, fallbackReasoning, true⟩
  | .httpFailure => ⟨fallbackScore mentor mentee, fallbackReasoning, true⟩

/-! ### Match lifecycle (MatchLifecycle, §4.5) -/

/-- The match_status enum of the matches table. -/
inductive MatchStatus where
  | pending
  | accepted
  | declined
  | expired
deriving DecidableEq

/-- A status is terminal when it admits no further transition:
accepted, declined and expired (§4.5). -/
def MatchStatus.isTerminal : MatchStatus → Bool
  | .pending => false
  | .accepted => true
  | .declined => true
  | .expired => true

/-- A record is active when its status is neither declined nor expired
(spec glossary: Active match). -/
def MatchStatus.isActive : MatchStatus → Bool
  | .pending => true
  | .accepted => true
  | .declined => false
  | .expired => false

/-- The persisted MatchRecord row (matches table of schema.md; ids and
timestamps are embedded as naturals, scores as rationals). -/
structure MatchRecord where
  id : ℕ
  mentor_id : ℕ
  mentee_id : ℕ
  status : MatchStatus
  bilateral_score : ℚ
  mentor_score : ℚ
  mentee_score : ℚ
  goal_alignment : ℚ
  created_at : ℕ
  mentor_decided_at : Option ℕ
  mentee_decided_at : Option ℕ
  expires_at : ℕ
deriving DecidableEq

/-- The lifecycle error conditions that cross the core boundary (§7). -/
inductive MatchError where
  | ConflictError
  | InvalidStateError
  | NotFoundError
deriving DecidableEq

/-- The persisted match store, embedded as a list of rows. -/
abbrev Store := List MatchRecord

/-- Does the store hold an active record for the (mentor, mentee) pair? -/
def hasActivePair (s : Store) (m n : ℕ) : Bool :=
  List.any s (fun r => r.mentor_id = m && r.mentee_id = n && r.status.isActive)

/-- The scores persisted with a new match (client-provided, §4.5). -/
structure ScorePayload where
  bilateral_score : ℚ
  mentor_score : ℚ
  mentee_score : ℚ
  goal_alignment : ℚ
deriving DecidableEq

/-- Modelled from the spec: initiate_match (§4.5, absent backend).  A
pending record is created for the pair unless an active record already
exists, in which case the operation fails with ConflictError and the
store is returned to the caller unchanged (no record is inserted). -/
def initiate_match (s : Store) (newId m n : ℕ) (p : ScorePayload) (now window : ℕ) :
    Except MatchError Store :=
  if hasActivePair s m n then .error .ConflictError
  else .ok (⟨newId, m, n, .pending, p.bilateral_score, p.mentor_score, p.mentee_score,
    p.goal_alignment, now, none, none, now + window⟩ :: s)

/-- The mentee's decision on a pending match. -/
inductive MatchResponse where
  | accept
  | decline
deriving DecidableEq

/-- The terminal status a response produces. -/
def MatchResponse.toStatus : MatchResponse → MatchStatus
  | .accept => .accepted
  | .decline => .declined

/-- Look a record up by id. -/
def findById (s : Store) (matchId : ℕ) : Option MatchRecord :=
  List.find? (fun r => r.id = matchId) s

/-- The row rewrite a successful response applies: the addressed record
moves to the terminal status of the response and mentee_decided_at is
set; every other row is untouched. -/
def respondUpdate (matchId : ℕ) (resp : MatchResponse) (now : ℕ)
    (q : MatchRecord) : MatchRecord :=
  if q.id = matchId then
    { q with status := resp.toStatus, mentee_decided_at := some now }
  else q

/-- Modelled from the spec: respond_to_match (§4.5, absent backend).
The transition is a single atomic compare-and-set on the current
status: only a record observed in the pending state is moved to the
terminal state of the response (setting mentee_decided_at); a record in
any other state makes the call fail with InvalidStateError, leaving the
store unchanged (an error returns no store to the caller). -/
def respond_to_match (s : Store) (matchId : ℕ) (resp : MatchResponse) (now : ℕ) :
    Except MatchError Store :=
  match findById s matchId with
  | none => .error .NotFoundError
  | some r =>
    if r.status = .pending then .ok (List.map (respondUpdate matchId resp now) s)
    else .error .InvalidStateError

/-- The row rewrite of the expiry sweep: a pending record past its
expires_at becomes expired; every other row is untouched. -/
def expireUpdate (now : ℕ) (r : MatchRecord) : MatchRecord :=
  if r.status = .pending && decide (r.expires_at < now) then
    { r with status := .expired }
  else r

/-- Modelled from the spec: the time-based expiry sweep (§4.5, absent
backend): every pending record past its expires_at becomes expired. -/
def expire_matches (s : Store) (now : ℕ) : Store :=
  List.map (expireUpdate now) s

/-- One lifecycle operation on the match store. -/
inductive LifecycleOp where
  | initiate (newId m n : ℕ) (p : ScorePayload) (now window : ℕ)
  | respond (matchId : ℕ) (resp : MatchResponse) (now : ℕ)
  | expire (now : ℕ)

/-- Apply one lifecycle operation.  A failing operation returns its
error and, by construction, no new store (the caller keeps the old
one). -/
def applyOp (op : LifecycleOp) (s : Store) : Except MatchError Store :=
  match op with
  | .initiate newId m n p now window => initiate_match s newId m n p now window
  | .respond matchId resp now => respond_to_match s matchId resp now
  | .expire now => .ok (expire_matches s now)

/-- The store invariant: at most one active record per
(mentor_id, mentee_id) pair (§3). -/
def ActiveUnique (s : Store) : Prop :=
  List.Pairwise (fun a b : MatchRecord =>
    ¬(a.mentor_id = b.mentor_id ∧ a.mentee_id = b.mentee_id ∧
      a.status.isActive = true ∧ b.status.isActive = true)) s

/-- Record ids are pairwise distinct (id is the table's primary key). -/
def UniqueIds (s : Store) : Prop :=
  List.Pairwise (fun a b : MatchRecord => a.id ≠ b.id) s

/-! ### Conversations (§3, §6) -/

/-- A conversations-table row (schema.md): one thread per match. -/
structure Conversation where
  id : ℕ
  match_id : ℕ
  mentor_id : ℕ
  mentee_id : ℕ
deriving DecidableEq

/-- Modelled from the spec: the idempotent
create-conversation-for-match side effect of the accept transition
(§4.5, §6, absent backend): if a conversation already exists for the
match, none is created. -/
def create_conversation_for_match (convs : List Conversation) (newId : ℕ)
    (m : MatchRecord) : List Conversation :=
  if List.any convs (fun c => c.match_id = m.id) then convs
  else ⟨newId, m.id, m.mentor_id, m.mentee_id⟩ :: convs

/-- The number of conversations linked to a match. -/
def convCount (convs : List Conversation) (matchId : ℕ) : ℕ :=
  (convs.filter (fun c => c.match_id = matchId)).length

/-! ### Feed generation (FeedGenerator, §4.4) -/

/-- A candidate in the pool: an id together with the FactorVector the
scorer computed for the (mentor, candidate) pair. -/
structure Candidate where
  candidate_id : ℕ
  factors : FactorVector
deriving DecidableEq

/-- A scored feed entry. -/
structure ScoredCandidate where
  candidate_id : ℕ
  scores : CombinedScores
deriving DecidableEq

/-- The feed's total order, as a Boolean relation for sorting:
descending by bilateral score, ties broken by mentor score descending,
then by candidate id ascending. -/
def feedOrder (a b : ScoredCandidate) : Bool :=
  decide (b.scores.bilateral < a.scores.bilateral) ||
    (decide (a.scores.bilateral = b.scores.bilateral) &&
      (decide (b.scores.mentor_score < a.scores.mentor_score) ||
        (decide (a.scores.mentor_score = b.scores.mentor_score) &&
          decide (a.candidate_id ≤ b.candidate_id))))

/-- Score one candidate against the mentor's weights (mentee side uses
the fixed default weight vector). -/
def scoreCandidate (mw : Weights) (c : Candidate) : ScoredCandidate :=
  ⟨c.candidate_id, combine c.factors mw defaultMenteeWeights⟩

/-- Does the scored candidate clear the feed threshold? -/
def clearsThreshold (threshold : ℚ) (c : ScoredCandidate) : Bool :=
  decide (threshold ≤ c.scores.bilateral)

/-- Modelled from the spec: generate_feed (§4.4, absent backend):
drop candidates already in an active match with the mentor, score the
rest, keep those whose bilateral score reaches the threshold, sort by
the deterministic feed order and return the top limit entries. -/
def generate_feed (mentorId : ℕ) (store : Store) (pool : List Candidate)
    (mw : Weights) (threshold : ℚ) (limit : ℕ) : List ScoredCandidate :=
  let eligible := pool.filter (fun c => !hasActivePair store mentorId c.candidate_id)
  let kept := (eligible.map (scoreCandidate mw)).filter (clearsThreshold threshold)
  (kept.mergeSort feedOrder).take limit

/-! ### Frontend match-creation client (src/frontend/lib/api.ts,
src/frontend/app/layout.tsx) -/

/-- The optional scores argument of connectMatch (api.ts line 32). -/
structure ConnectScores where
  bilateral_score : Option ℚ
  mentor_score : Option ℚ
  mentee_score : Option ℚ
  goal_alignment : Option ℚ
deriving DecidableEq

/-- The JSON body connectMatch posts to /api/match/connect
(api.ts lines 33–40). -/
structure ConnectRequestBody where
  mentor_id : String
  mentee_id : String
  bilateral_score : Option ℚ
  mentor_score : Option ℚ
  mentee_score : Option ℚ
  goal_alignment : Option ℚ
deriving DecidableEq

/-- connectMatch's body construction (api.ts lines 32–41): the two ids
and the spread of the caller-supplied scores object, nothing else. -/
def connectMatchBody (mentorId menteeId : String) (scores : ConnectScores) :
    ConnectRequestBody :=
  { mentor_id := mentorId, mentee_id := menteeId,
    bilateral_score := scores.bilateral_score,
    mentor_score := scores.mentor_score,
    mentee_score := scores.mentee_score,
    goal_alignment := scores.goal_alignment }

/-- The fields of a FeedItem that handleConnect reads
(layout.tsx lines 33–47, 110–127). -/
structure FeedItem where
  mentee_id : String
  bilateral_score : ℚ
  mentor_score : ℚ
  mentee_score : ℚ
  goal_alignment_score : Option ℚ
deriving DecidableEq

/-- handleConnect's call to connectMatch (layout.tsx lines 115–120): it
forwards the signed-in user's id, the item's mentee_id, and the item's
four score fields verbatim. -/
def handleConnectBody (userId : String) (item : FeedItem) : ConnectRequestBody :=
  connectMatchBody userId item.mentee_id
    ⟨some item.bilateral_score, some item.mentor_score, some item.mentee_score,
      item.goal_alignment_score⟩

/-! ## Theorems -/

/-- C1: for every pair of one-sided scores, combine returns
bilateral_score = 0.6 × mentor_score + 0.4 × mentee_score on the 0–100
scale rounded to one decimal place; in particular mentor_score = 82.5
and mentee_score = 78.4 yield bilateral = 80.9 (note 0.6 × 82.5 +
0.4 × 78.4 = 80.86, which rounds to 80.9). -/
theorem combine_bilateral_formula :
    (∀ (f : FactorVector) (mw nw : Weights),
      (combine f mw nw).bilateral =
        round1 (6/10 * (combine f mw nw).mentor_score +
          4/10 * (combine f mw nw).mentee_score)) ∧
    (∀ (f : FactorVector) (mw nw : Weights),
      (combine f mw nw).mentor_score = 165/2 →
      (combine f mw nw).mentee_score = 392/5 →
      (combine f mw nw).bilateral = 809/10) := by
  have key : ∀ (f : FactorVector) (mw nw : Weights),
      (combine f mw nw).bilateral =
        round1 (6/10 * (combine f mw nw).mentor_score +
          4/10 * (combine f mw nw).mentee_score) := fun f mw nw => rfl
  refine ⟨key, fun f mw nw hm hn => ?_⟩
  rw [key, hm, hn]
  norm_num [round1]

/-- Witness for C1: a factor vector and weight vectors whose one-sided
scores are exactly 82.5 and 78.4, with resulting bilateral 80.9. -/
theorem combine_bilateral_formula_witness :
    (combine ⟨33/40, 98/125, 0, 0, 0, 0, 0⟩ ⟨1, 0, 0, 0, 0, 0, 0⟩
      ⟨0, 1, 0, 0, 0, 0, 0⟩).mentor_score = 165/2 ∧
    (combine ⟨33/40, 98/125, 0, 0, 0, 0, 0⟩ ⟨1, 0, 0, 0, 0, 0, 0⟩
      ⟨0, 1, 0, 0, 0, 0, 0⟩).mentee_score = 392/5 ∧
    (combine ⟨33/40, 98/125, 0, 0, 0, 0, 0⟩ ⟨1, 0, 0, 0, 0, 0, 0⟩
      ⟨0, 1, 0, 0, 0, 0, 0⟩).bilateral = 809/10 := by
  have hm : (combine ⟨33/40, 98/125, 0, 0, 0, 0, 0⟩ ⟨1, 0, 0, 0, 0, 0, 0⟩
      ⟨0, 1, 0, 0, 0, 0, 0⟩).mentor_score = 165/2 := by
    norm_num [combine, oneSided, weightedSum, Weights.total, round1]
  have hn : (combine ⟨33/40, 98/125, 0, 0, 0, 0, 0⟩ ⟨1, 0, 0, 0, 0, 0, 0⟩
      ⟨0, 1, 0, 0, 0, 0, 0⟩).mentee_score = 392/5 := by
    norm_num [combine, oneSided, weightedSum, Weights.total, round1]
  exact ⟨hm, hn, combine_bilateral_formula.2 _ _ _ hm hn⟩

/-- C7: with all mentor weights 0 the one-sided score is the unweighted
arithmetic mean of the seven factors, and the weighted average never
divides by zero — witnessed by the fact that a constant factor vector
scores exactly that constant under every weight vector (a division by a
zero total would collapse the quotient to 0 instead). -/
theorem oneSided_zero_weight_mean :
    (∀ f : FactorVector, oneSided f zeroWeights = mean7 f) ∧
    (∀ (c : ℚ) (w : Weights), oneSided (constVector c) w = c) := by
  constructor
  · intro f
    rfl
  · intro c w
    by_cases h : w.total = 0
    · rw [oneSided, if_pos h]
      rw [mean7, factorSum]
      show (c + c + c + c + c + c + c) / 7 = c
      ring_nf
    · rw [oneSided, if_neg h]
      have hq : (w.total : ℚ) ≠ 0 := Nat.cast_ne_zero.mpr h
      have hws : weightedSum (constVector c) w = (w.total : ℚ) * c := by
        rw [weightedSum, Weights.total]
        show (w.shared_university : ℚ) * c + (w.university_prestige : ℚ) * c +
          (w.industry_alignment : ℚ) * c + (w.help_type_match : ℚ) * c +
          (w.location_proximity : ℚ) * c + (w.experience_gap : ℚ) * c +
          (w.goal_alignment : ℚ) * c = _
        push_cast
        ring
      rw [hws, mul_div_cancel_left₀ c hq]

/-- C8: the experience-gap factor is 0 at a 0-year gap, linear up to 1.0
at the start of the 3–7 band, exactly 1.0 across the band, linear decay
back to 0 at the 12-year bound, with a 5-year gap scoring 1.0 and a
20-year gap scoring 0 (the default floor). -/
theorem experienceGapScore_spec :
    experienceGapScore 0 = 0 ∧ experienceGapScore 5 = 1 ∧
    experienceGapScore 20 = 0 ∧
    (∀ g : ℚ, 3 ≤ g → g ≤ 7 → experienceGapScore g = 1) ∧
    (∀ g : ℚ, 0 ≤ g → g ≤ 3 → experienceGapScore g = g / 3) ∧
    (∀ g : ℚ, 7 ≤ g → g ≤ 12 → experienceGapScore g = (12 - g) / 5) ∧
    (∀ g : ℚ, 12 ≤ g → experienceGapScore g = 0) := by
  refine ⟨by norm_num [experienceGapScore], by norm_num [experienceGapScore],
    by norm_num [experienceGapScore], ?_, ?_, ?_, ?_⟩
  · intro g h1 h2
    unfold experienceGapScore
    split_ifs <;> first | rfl | linarith
  · intro g h1 h2
    unfold experienceGapScore
    split_ifs <;> first | rfl | linarith
  · intro g h1 h2
    unfold experienceGapScore
    split_ifs <;> first | rfl | linarith
  · intro g h1
    unfold experienceGapScore
    split_ifs <;> first | rfl | linarith

/-- Witness for C8 at concrete gaps: the plateau at a 5-year gap, the
rising edge at 1.5 years, and the falling edge at a 9.5-year gap. -/
theorem experienceGapScore_spec_witness :
    experienceGapScore 5 = 1 ∧ experienceGapScore (3/2) = 1/2 ∧
    experienceGapScore (19/2) = 1/2 := by
  refine ⟨experienceGapScore_spec.2.2.2.1 5 (by norm_num) (by norm_num), ?_, ?_⟩
  · have h := experienceGapScore_spec.2.2.2.2.1 (3/2) (by norm_num) (by norm_num)
    rw [h]
    norm_num
  · have h := experienceGapScore_spec.2.2.2.2.2.1 (19/2) (by norm_num) (by norm_num)
    rw [h]
    norm_num

/-- C5: score_goal_alignment is total (it never raises), and on every
failure outcome of the external service — malformed response, timeout,
non-success status — it returns exactly the rule-based fallback score
(0.0, plus 0.5 on an industry match, plus 0.3 per shared help tag,
capped at 1.0) with the reasoning string that states the fallback was
used. -/
theorem score_goal_alignment_fallback_spec :
    ∀ (mentor : MentorSummary) (mentee : MenteeInfo),
      score_goal_alignment .malformedResponse mentor mentee =
        ⟨fallbackScore mentor mentee, fallbackReasoning, true⟩ ∧
      score_goal_alignment .timedOut mentor mentee =
        ⟨fallbackScore mentor mentee, fallbackReasoning, true⟩ ∧
      score_goal_alignment .httpFailure mentor mentee =
        ⟨fallbackScore mentor mentee, fallbackReasoning, true⟩ ∧
      fallbackScore mentor mentee ≤ 1 ∧ 0 ≤ fallbackScore mentor mentee := by
  intro mentor mentee
  refine ⟨rfl, rfl, rfl, min_le_left _ _, ?_⟩
  rw [fallbackScore]
  refine le_min (by norm_num) (add_nonneg ?_ (by positivity))
  split_ifs <;> norm_num

/-- C6: the create-conversation-for-match side effect is idempotent —
starting from a state with no conversation for the match, one call
creates exactly one conversation linked to it, and a second call for
the same match creates no second conversation. -/
theorem create_conversation_idempotent :
    ∀ (convs : List Conversation) (newId newId2 : ℕ) (m : MatchRecord),
      convCount convs m.id = 0 →
      convCount (create_conversation_for_match convs newId m) m.id = 1 ∧
      create_conversation_for_match (create_conversation_for_match convs newId m)
        newId2 m = create_conversation_for_match convs newId m := by
  intro convs newId newId2 m h0
  have hfil : convs.filter (fun c => c.match_id = m.id) = [] :=
    List.length_eq_zero.mp h0
  have hnone : List.any convs (fun c => decide (c.match_id = m.id)) = false := by
    rw [List.any_eq_false]
    intro c hc
    have := List.filter_eq_nil_iff.mp hfil c hc
    simpa using this
  have hcreate : create_conversation_for_match convs newId m =
      ⟨newId, m.id, m.mentor_id, m.mentee_id⟩ :: convs := by
    rw [create_conversation_for_match]
    simp only [hnone]
    rfl
  refine ⟨?_, ?_⟩
  · rw [hcreate, convCount, List.filter_cons]
    simp [hfil]
  · rw [hcreate]
    conv_lhs => rw [create_conversation_for_match]
    simp

/-- Witness for C6: on an empty conversation table a first create for a
concrete accepted match yields one conversation and a repeat call
changes nothing. -/
theorem create_conversation_idempotent_witness :
    convCount (create_conversation_for_match [] 7
      ⟨1, 10, 20, .accepted, 80, 82, 78, 1, 0, none, some 3, 14⟩) 1 = 1 ∧
    create_conversation_for_match (create_conversation_for_match [] 7
        ⟨1, 10, 20, .accepted, 80, 82, 78, 1, 0, none, some 3, 14⟩) 8
      ⟨1, 10, 20, .accepted, 80, 82, 78, 1, 0, none, some 3, 14⟩ =
      create_conversation_for_match [] 7
        ⟨1, 10, 20, .accepted, 80, 82, 78, 1, 0, none, some 3, 14⟩ :=
  create_conversation_idempotent [] 7 8
    ⟨1, 10, 20, .accepted, 80, 82, 78, 1, 0, none, some 3, 14⟩ rfl

/-! ### Feed order lemmas -/

theorem feedOrder_total (a b : ScoredCandidate) :
    (feedOrder a b || feedOrder b a) = true := by
  simp only [feedOrder, Bool.or_eq_true, Bool.and_eq_true, decide_eq_true_eq]
  rcases lt_trichotomy a.scores.bilateral b.scores.bilateral with h | h | h
  · exact Or.inr (Or.inl h)
  · rcases lt_trichotomy a.scores.mentor_score b.scores.mentor_score with hm | hm | hm
    · exact Or.inr (Or.inr ⟨h.symm, Or.inl hm⟩)
    · rcases Nat.le_total a.candidate_id b.candidate_id with hi | hi
      · exact Or.inl (Or.inr ⟨h, Or.inr ⟨hm, hi⟩⟩)
      · exact Or.inr (Or.inr ⟨h.symm, Or.inr ⟨hm.symm, hi⟩⟩)
    · exact Or.inl (Or.inr ⟨h, Or.inl hm⟩)
  · exact Or.inl (Or.inl h)

theorem feedOrder_trans (a b c : ScoredCandidate) :
    feedOrder a b = true → feedOrder b c = true → feedOrder a c = true := by
  simp only [feedOrder, Bool.or_eq_true, Bool.and_eq_true, decide_eq_true_eq]
  rintro (h1 | ⟨e1, h1⟩) (h2 | ⟨e2, h2⟩)
  · exact Or.inl (lt_trans h2 h1)
  · exact Or.inl (e2 ▸ h1)
  · exact Or.inl (by rw [e1]; exact h2)
  · refine Or.inr ⟨e1.trans e2, ?_⟩
    rcases h1 with h1 | ⟨f1, h1⟩ <;> rcases h2 with h2 | ⟨f2, h2⟩
    · exact Or.inl (lt_trans h2 h1)
    · exact Or.inl (f2 ▸ h1)
    · exact Or.inl (by rw [f1]; exact h2)
    · exact Or.inr ⟨f1.trans f2, le_trans h1 h2⟩

/-- C2: the generated feed is the limit-prefix of a ranking that is a
permutation of exactly the scored candidates with no active match with
the mentor that clear the threshold, sorted by the deterministic feed
order (bilateral descending, then mentor score descending, then
candidate id ascending); hence the feed is at most limit long and each
feed entry clears the threshold and comes from an unmatched pool
candidate. -/
theorem generate_feed_spec :
    ∀ (mentorId : ℕ) (store : Store) (pool : List Candidate) (mw : Weights)
      (threshold : ℚ) (limit : ℕ),
      ∃ ranked : List ScoredCandidate,
        ranked.Perm (((pool.filter
          (fun c => !hasActivePair store mentorId c.candidate_id)).map
            (scoreCandidate mw)).filter (clearsThreshold threshold)) ∧
        List.Pairwise (fun a b => feedOrder a b = true) ranked ∧
        generate_feed mentorId store pool mw threshold limit = ranked.take limit ∧
        (generate_feed mentorId store pool mw threshold limit).length ≤ limit ∧
        (∀ x ∈ generate_feed mentorId store pool mw threshold limit,
          threshold ≤ x.scores.bilateral ∧
          ∃ c ∈ pool, hasActivePair store mentorId c.candidate_id = false ∧
            x = scoreCandidate mw c) := by
  intro mentorId store pool mw threshold limit
  have hgf : generate_feed mentorId store pool mw threshold limit =
      ((((pool.filter (fun c => !hasActivePair store mentorId c.candidate_id)).map
        (scoreCandidate mw)).filter (clearsThreshold threshold)).mergeSort
          feedOrder).take limit := rfl
  refine ⟨(((pool.filter (fun c => !hasActivePair store mentorId c.candidate_id)).map
      (scoreCandidate mw)).filter (clearsThreshold threshold)).mergeSort feedOrder,
    List.mergeSort_perm _ feedOrder,
    List.sorted_mergeSort feedOrder_trans feedOrder_total _, hgf, ?_, ?_⟩
  · rw [hgf, List.length_take]
    exact min_le_left _ _
  · intro x hx
    rw [hgf] at hx
    have hx1 := List.Sublist.mem hx (List.take_sublist _ _)
    rw [List.mem_mergeSort, List.mem_filter] at hx1
    obtain ⟨hmap, hth⟩ := hx1
    rw [List.mem_map] at hmap
    obtain ⟨c, hc, hcx⟩ := hmap
    rw [List.mem_filter] at hc
    refine ⟨by simpa [clearsThreshold] using hth, c, hc.1, ?_, hcx.symm⟩
    simpa using hc.2

/-! ### Lifecycle helper lemmas -/

theorem respondUpdate_id (i : ℕ) (rp : MatchResponse) (n : ℕ) (q : MatchRecord) :
    (respondUpdate i rp n q).id = q.id := by
  rw [respondUpdate]
  split_ifs <;> rfl

theorem respondUpdate_mentor_id (i : ℕ) (rp : MatchResponse) (n : ℕ)
    (q : MatchRecord) : (respondUpdate i rp n q).mentor_id = q.mentor_id := by
  rw [respondUpdate]
  split_ifs <;> rfl

theorem respondUpdate_mentee_id (i : ℕ) (rp : MatchResponse) (n : ℕ)
    (q : MatchRecord) : (respondUpdate i rp n q).mentee_id = q.mentee_id := by
  rw [respondUpdate]
  split_ifs <;> rfl

theorem respondUpdate_active (i : ℕ) (rp : MatchResponse) (n : ℕ)
    (q : MatchRecord) (hq : q.id = i → q.status = .pending) :
    (respondUpdate i rp n q).status.isActive = true →
      q.status.isActive = true := by
  rw [respondUpdate]
  split_ifs with h
  · intro _
    rw [hq h]
    rfl
  · exact id

theorem expireUpdate_mentor_id (n : ℕ) (q : MatchRecord) :
    (expireUpdate n q).mentor_id = q.mentor_id := by
  rw [expireUpdate]
  split_ifs <;> rfl

theorem expireUpdate_mentee_id (n : ℕ) (q : MatchRecord) :
    (expireUpdate n q).mentee_id = q.mentee_id := by
  rw [expireUpdate]
  split_ifs <;> rfl

theorem expireUpdate_active (n : ℕ) (q : MatchRecord) :
    (expireUpdate n q).status.isActive = true → q.status.isActive = true := by
  rw [expireUpdate]
  split_ifs with h
  · intro hco
    exact absurd hco (by simp [MatchStatus.isActive])
  · exact id

theorem expireUpdate_of_not_pending (n : ℕ) (q : MatchRecord)
    (h : q.status ≠ .pending) : expireUpdate n q = q := by
  rw [expireUpdate, if_neg]
  simp [h]

theorem uniqueIds_eq_of_id {s : Store} (hids : UniqueIds s) {a b : MatchRecord}
    (ha : a ∈ s) (hb : b ∈ s) (hid : a.id = b.id) : a = b := by
  by_contra hne
  exact List.Pairwise.forall (fun x y hxy => (hxy ∘ Eq.symm)) hids ha hb hne hid

theorem findById_mem {s : Store} {i : ℕ} {r : MatchRecord}
    (h : findById s i = some r) : r ∈ s := by
  rw [findById] at h
  exact List.mem_of_find?_eq_some h

theorem findById_id {s : Store} {i : ℕ} {r : MatchRecord}
    (h : findById s i = some r) : r.id = i := by
  rw [findById] at h
  have h2 := List.find?_some h
  simpa using h2

theorem pending_of_id {s : Store} {i : ℕ} {r : MatchRecord}
    (hids : UniqueIds s) (hfind : findById s i = some r)
    (hp : r.status = .pending) :
    ∀ q ∈ s, q.id = i → q.status = .pending := by
  intro q hq hqi
  have hrmem : r ∈ s := findById_mem hfind
  have hri : r.id = i := findById_id hfind
  have : q = r := uniqueIds_eq_of_id hids hq hrmem (hqi.trans hri.symm)
  rw [this, hp]

theorem not_pending_of_terminal {st : MatchStatus}
    (h : st.isTerminal = true) : st ≠ .pending := by
  cases st <;> simp_all [MatchStatus.isTerminal]

/-- C3: a store satisfying the at-most-one-active-record-per-pair
invariant (with distinct primary keys) still satisfies it after every
lifecycle operation, and initiating a match for a pair that already has
an active record fails with ConflictError (the error carries no store,
so no record is inserted). -/
theorem match_store_invariant (s : Store) (h : ActiveUnique s)
    (hids : UniqueIds s) :
    (∀ (op : LifecycleOp) (s2 : Store), applyOp op s = .ok s2 → ActiveUnique s2) ∧
    (∀ (newId m n : ℕ) (p : ScorePayload) (now window : ℕ),
      hasActivePair s m n = true →
      initiate_match s newId m n p now window = .error .ConflictError) := by
  constructor
  · intro op s2 hok
    cases op with
    | initiate newId m n p now window =>
      simp only [applyOp, initiate_match] at hok
      cases hact : hasActivePair s m n with
      | true =>
        rw [hact] at hok
        simp at hok
      | false =>
        rw [hact] at hok
        simp only [Bool.false_eq_true, if_false, Except.ok.injEq] at hok
        subst hok
        refine List.Pairwise.cons ?_ h
        rintro b hb ⟨hm, hn, -, hbact⟩
        have : hasActivePair s m n = true := by
          rw [hasActivePair, List.any_eq_true]
          refine ⟨b, hb, ?_⟩
          simp [← hm, ← hn, hbact]
        rw [this] at hact
        cases hact
    | respond matchId resp now =>
      simp only [applyOp, respond_to_match] at hok
      cases hfind : findById s matchId with
      | none =>
        rw [hfind] at hok
        simp at hok
      | some r =>
        rw [hfind] at hok
        simp only [] at hok
        by_cases hp : r.status = .pending
        · rw [if_pos hp] at hok
          simp only [Except.ok.injEq] at hok
          subst hok
          have hpend : ∀ q ∈ s, q.id = matchId → q.status = .pending :=
            pending_of_id hids hfind hp
          rw [ActiveUnique, List.pairwise_map]
          refine List.Pairwise.imp_of_mem ?_ h
          intro a b ha hb hR
          rintro ⟨h1, h2, h3, h4⟩
          rw [respondUpdate_mentor_id, respondUpdate_mentor_id] at h1
          rw [respondUpdate_mentee_id, respondUpdate_mentee_id] at h2
          exact hR ⟨h1, h2, respondUpdate_active _ _ _ a (hpend a ha) h3,
            respondUpdate_active _ _ _ b (hpend b hb) h4⟩
        · rw [if_neg hp] at hok
          simp at hok
    | expire now =>
      simp only [applyOp, expire_matches, Except.ok.injEq] at hok
      subst hok
      rw [ActiveUnique, List.pairwise_map]
      refine List.Pairwise.imp_of_mem ?_ h
      intro a b _ _ hR
      rintro ⟨h1, h2, h3, h4⟩
      rw [expireUpdate_mentor_id, expireUpdate_mentor_id] at h1
      rw [expireUpdate_mentee_id, expireUpdate_mentee_id] at h2
      exact hR ⟨h1, h2, expireUpdate_active _ a h3, expireUpdate_active _ b h4⟩
  · intro newId m n p now window hact
    rw [initiate_match, if_pos]
    rw [hact]

/-- Witness for C3: a store holding one pending (hence active) record
for the pair (10, 20) rejects a second initiate_match for that pair
with ConflictError. -/
theorem match_store_invariant_witness :
    initiate_match [⟨1, 10, 20, .pending, 80, 82, 78, 1, 0, none, none, 14⟩]
      2 10 20 ⟨80, 82, 78, 1⟩ 5 14 = .error .ConflictError :=
  (match_store_invariant [⟨1, 10, 20, .pending, 80, 82, 78, 1, 0, none, none, 14⟩]
    (by simp [ActiveUnique]) (by simp [UniqueIds])).2 2 10 20 ⟨80, 82, 78, 1⟩ 5 14 rfl

/-- C4: accepted, declined and expired are terminal — every lifecycle
operation keeps a terminal record in the store unchanged — and
respond_to_match on a record whose status is not pending fails with
InvalidStateError (the error returns no store, so the record is left
unchanged). -/
theorem terminal_statuses_final (s : Store) (hids : UniqueIds s) :
    (∀ r ∈ s, r.status.isTerminal = true →
      ∀ (op : LifecycleOp) (s2 : Store), applyOp op s = .ok s2 → r ∈ s2) ∧
    (∀ (matchId : ℕ) (resp : MatchResponse) (now : ℕ) (r : MatchRecord),
      findById s matchId = some r → r.status ≠ .pending →
      respond_to_match s matchId resp now = .error .InvalidStateError) := by
  constructor
  · intro r hr hterm op s2 hok
    cases op with
    | initiate newId m n p now window =>
      simp only [applyOp, initiate_match] at hok
      cases hact : hasActivePair s m n with
      | true =>
        rw [hact] at hok
        simp at hok
      | false =>
        rw [hact] at hok
        simp only [Bool.false_eq_true, if_false, Except.ok.injEq] at hok
        subst hok
        exact List.mem_cons_of_mem _ hr
    | respond matchId resp now =>
      simp only [applyOp, respond_to_match] at hok
      cases hfind : findById s matchId with
      | none =>
        rw [hfind] at hok
        simp at hok
      | some r0 =>
        rw [hfind] at hok
        simp only [] at hok
        by_cases hp : r0.status = .pending
        · rw [if_pos hp] at hok
          simp only [Except.ok.injEq] at hok
          subst hok
          have hne : r.id ≠ matchId := by
            intro hid
            have hr0mem : r0 ∈ s := findById_mem hfind
            have hr0i : r0.id = matchId := findById_id hfind
            have : r = r0 := uniqueIds_eq_of_id hids hr hr0mem (hid.trans hr0i.symm)
            exact not_pending_of_terminal hterm (this ▸ hp)
          have : respondUpdate matchId resp now r = r := by
            rw [respondUpdate, if_neg hne]
          exact this ▸ List.mem_map_of_mem _ hr
        · rw [if_neg hp] at hok
          simp at hok
    | expire now =>
      simp only [applyOp, expire_matches, Except.ok.injEq] at hok
      subst hok
      have : expireUpdate now r = r :=
        expireUpdate_of_not_pending now r (not_pending_of_terminal hterm)
      exact this ▸ List.mem_map_of_mem _ hr
  · intro matchId resp now r hfind hnp
    rw [respond_to_match, hfind]
    simp only []
    rw [if_neg hnp]

/-- Witness for C4: responding to an already-accepted match fails with
InvalidStateError. -/
theorem terminal_statuses_final_witness :
    respond_to_match [⟨1, 10, 20, .accepted, 80, 82, 78, 1, 0, none, some 3, 14⟩]
      1 .accept 4 = .error .InvalidStateError :=
  (terminal_statuses_final
    [⟨1, 10, 20, .accepted, 80, 82, 78, 1, 0, none, some 3, 14⟩]
    (by simp [UniqueIds])).2 1 .accept 4
    ⟨1, 10, 20, .accepted, 80, 82, 78, 1, 0, none, some 3, 14⟩ rfl (by decide)

/-- C9: the transition is an atomic compare-and-set on the current
status, so in either serialization of two concurrent respond_to_match
calls on the same pending record, the first call succeeds and moves the
record to a terminal status and the second fails with
InvalidStateError. -/
theorem concurrent_respond_cas (s : Store) (matchId : ℕ) (r : MatchRecord)
    (resp1 resp2 : MatchResponse) (now1 now2 : ℕ)
    (hfind : findById s matchId = some r) (hp : r.status = .pending) :
    respond_to_match s matchId resp1 now1 =
      .ok (List.map (respondUpdate matchId resp1 now1) s) ∧
    respond_to_match (List.map (respondUpdate matchId resp1 now1) s)
      matchId resp2 now2 = .error .InvalidStateError ∧
    ∃ q : MatchRecord,
      findById (List.map (respondUpdate matchId resp1 now1) s) matchId = some q ∧
      q.status = resp1.toStatus ∧ q.status.isTerminal = true := by
  have hri : r.id = matchId := findById_id hfind
  have hfind1 : findById (List.map (respondUpdate matchId resp1 now1) s) matchId =
      some (respondUpdate matchId resp1 now1 r) := by
    rw [findById, List.find?_map]
    have hpred : ((fun q : MatchRecord => decide (q.id = matchId)) ∘
        respondUpdate matchId resp1 now1) =
        (fun q : MatchRecord => decide (q.id = matchId)) := by
      funext q
      simp [Function.comp, respondUpdate_id]
    rw [hpred]
    rw [findById] at hfind
    rw [hfind]
    rfl
  have hupd : respondUpdate matchId resp1 now1 r =
      { r with status := resp1.toStatus, mentee_decided_at := some now1 } := by
    rw [respondUpdate, if_pos hri]
  have hstat : (respondUpdate matchId resp1 now1 r).status = resp1.toStatus := by
    rw [hupd]
  refine ⟨?_, ?_, ?_⟩
  · rw [respond_to_match, hfind]
    simp only []
    rw [if_pos hp]
  · rw [respond_to_match, hfind1]
    simp only []
    rw [if_neg]
    rw [hstat]
    cases resp1 <;> simp [MatchResponse.toStatus]
  · refine ⟨respondUpdate matchId resp1 now1 r, hfind1, hstat, ?_⟩
    rw [hstat]
    cases resp1 <;> rfl

/-- Witness for C9: a concrete pending record; accepting it succeeds
and a second, concurrent decline is rejected with InvalidStateError. -/
theorem concurrent_respond_cas_witness :
    respond_to_match [⟨1, 10, 20, .pending, 80, 82, 78, 1, 0, none, none, 14⟩]
      1 .accept 3 =
      .ok [⟨1, 10, 20, .accepted, 80, 82, 78, 1, 0, none, some 3, 14⟩] ∧
    respond_to_match [⟨1, 10, 20, .accepted, 80, 82, 78, 1, 0, none, some 3, 14⟩]
      1 .decline 4 = .error .InvalidStateError := by
  have h := concurrent_respond_cas
    [⟨1, 10, 20, .pending, 80, 82, 78, 1, 0, none, none, 14⟩] 1
    ⟨1, 10, 20, .pending, 80, 82, 78, 1, 0, none, none, 14⟩ .accept .decline 3 4
    rfl rfl
  exact ⟨h.1, h.2.1⟩

/-- C10: connectMatch posts exactly the caller-supplied mentor_id,
mentee_id and optional scores, and handleConnect supplies the feed
item's score values verbatim, so the persisted scores are the
client-provided feed-item values, not recomputed ones. -/
theorem connect_body_is_caller_supplied :
    (∀ (m n : String) (sc : ConnectScores),
      connectMatchBody m n sc =
        ⟨m, n, sc.bilateral_score, sc.mentor_score, sc.mentee_score,
          sc.goal_alignment⟩) ∧
    (∀ (userId : String) (item : FeedItem),
      handleConnectBody userId item =
        ⟨userId, item.mentee_id, some item.bilateral_score,
          some item.mentor_score, some item.mentee_score,
          item.goal_alignment_score⟩) :=
  ⟨fun _ _ _ => rfl, fun _ _ => rfl⟩

end Beacon
